import Mathlib

/-!
Verification development for the ClickHouse CacheDictionaryUpdateQueue component
(src/Dictionaries/CacheDictionaryUpdateQueue.h).

The header file declares the update-unit data carrier (with its three inline
constructors), the queue configuration, and the queue class.  The method bodies of
the queue (constructor, tryPushToUpdateQueueOrThrow, waitForCurrentUpdateFinish,
stopAndWait, updateThreadFunction) live in a translation unit that is not part of
the sources; those operations are modelled from the specification, as marked on
each definition.
-/

namespace DB

/-- Key type selector of the dictionary, referenced by the header at
CacheDictionaryUpdateQueue.h lines 42, 100, 101 and 125 (values simple, complex
and range). -/
inductive DictionaryKeyType where
  | simple
  | complex
  | range
  deriving DecidableEq, Repr

/-- Abstraction of DictionaryStorageFetchRequest (declared in
ICacheDictionaryStorage.h, outside the sources): the list of attributes that a
fetch must materialize. -/
structure DictionaryStorageFetchRequest where
  attributes_to_fetch : List String
  deriving DecidableEq, Repr

/-- makeAttributesResultColumns: produces one empty result column per requested
attribute, so a worker can fill them in place. -/
def DictionaryStorageFetchRequest.makeAttributesResultColumns
    (r : DictionaryStorageFetchRequest) : List (List Nat) :=
  r.attributes_to_fetch.map (fun _ => ([] : List Nat))

/-- A fetch request with no attributes (default-constructed
DictionaryStorageFetchRequest). -/
def emptyFetchRequest : DictionaryStorageFetchRequest :=
  { attributes_to_fetch := [] }

/-- Embedding of CacheDictionaryUpdateUnit (CacheDictionaryUpdateQueue.h lines
38-95).  Simple keys are 64-bit integers (modelled as Nat); complex key columns
are modelled as opaque column handles (Nat).  The two CurrentMetrics::Increment
members alive_batch and alive_keys are modelled by the amounts they add to the
process-wide metrics at construction and subtract at destruction.  The field
ghost_callback_invocations is ghost instrumentation (not a C++ member) counting
how many times the update callback has run on this unit. -/
structure CacheDictionaryUpdateUnit where
  requested_simple_keys : List Nat
  requested_complex_key_columns : List Nat
  requested_complex_key_rows : List Nat
  request : DictionaryStorageFetchRequest
  requested_keys_to_fetched_columns_during_update_index : List (Nat × Nat)
  fetched_columns_during_update : List (List Nat)
  complex_key_arena : Bool
  is_done : Bool
  current_exception : Option String
  alive_batch : Nat
  alive_keys : Nat
  ghost_callback_invocations : Nat
  deriving DecidableEq, Repr

/-- Embedding of the simple-keys constructor (header lines 45-53).  C++
initializes members in declaration order: requested_simple_keys (line 73) is
move-constructed from the parameter first, and PODArray move construction leaves
the moved-from source empty; only afterwards is alive_keys (line 94) initialized
with the amount requested_simple_keys_.size(), the size of the already
moved-from parameter, hence 0.  The body then fills
fetched_columns_during_update from the request. -/
def CacheDictionaryUpdateUnit.mkSimple
    (requested_simple_keys_ : List Nat)
    (request_ : DictionaryStorageFetchRequest) : CacheDictionaryUpdateUnit :=
  let member_requested_simple_keys := requested_simple_keys_
  let requested_simple_keys_after_move : List Nat := []
  { requested_simple_keys := member_requested_simple_keys
    requested_complex_key_columns := []
    requested_complex_key_rows := []
    request := request_
    requested_keys_to_fetched_columns_during_update_index := []
    fetched_columns_during_update := request_.makeAttributesResultColumns
    complex_key_arena := false
    is_done := false
    current_exception := none
    alive_batch := 1
    alive_keys := requested_simple_keys_after_move.length
    ghost_callback_invocations := 0 }

/-- Embedding of the complex-keys constructor (header lines 56-67).  The row
indices are received by const rvalue reference, so the member copy-constructs
from the parameter; alive_keys (line 64) is initialized from the size of the
member requested_complex_key_rows, already initialized, hence the full row
count.  The constructor also allocates the complex key arena (line 63). -/
def CacheDictionaryUpdateUnit.mkComplex
    (requested_complex_key_columns_ : List Nat)
    (requested_complex_key_rows_ : List Nat)
    (request_ : DictionaryStorageFetchRequest) : CacheDictionaryUpdateUnit :=
  { requested_simple_keys := []
    requested_complex_key_columns := requested_complex_key_columns_
    requested_complex_key_rows := requested_complex_key_rows_
    request := request_
    requested_keys_to_fetched_columns_during_update_index := []
    fetched_columns_during_update := request_.makeAttributesResultColumns
    complex_key_arena := true
    is_done := false
    current_exception := none
    alive_batch := 1
    alive_keys := requested_complex_key_rows_.length
    ghost_callback_invocations := 0 }

/-- Embedding of the default constructor (header lines 69-71): every member is
default-constructed except alive_keys, which is explicitly given amount 0; the
body is empty, so fetched_columns_during_update stays empty and the arena
pointer stays null. -/
def CacheDictionaryUpdateUnit.mkDefault : CacheDictionaryUpdateUnit :=
  { requested_simple_keys := []
    requested_complex_key_columns := []
    requested_complex_key_rows := []
    request := emptyFetchRequest
    requested_keys_to_fetched_columns_during_update_index := []
    fetched_columns_during_update := []
    complex_key_arena := false
    is_done := false
    current_exception := none
    alive_batch := 1
    alive_keys := 0
    ghost_callback_invocations := 0 }

/-- Process-wide CurrentMetrics state: the CacheDictionaryUpdateQueueBatches and
CacheDictionaryUpdateQueueKeys counters (header lines 18-22). -/
structure CurrentMetricsState where
  batches : Int
  keys : Int
  deriving DecidableEq, Repr

/-- Effect on the metrics of constructing a unit: each CurrentMetrics::Increment
member adds its amount when it is constructed. -/
def unitConstructMetrics (u : CacheDictionaryUpdateUnit)
    (m : CurrentMetricsState) : CurrentMetricsState :=
  { batches := m.batches + u.alive_batch, keys := m.keys + u.alive_keys }

/-- Effect on the metrics of destroying a unit: each CurrentMetrics::Increment
member subtracts the amount it added when it is destroyed. -/
def unitDestroyMetrics (u : CacheDictionaryUpdateUnit)
    (m : CurrentMetricsState) : CurrentMetricsState :=
  { batches := m.batches - u.alive_batch, keys := m.keys - u.alive_keys }

/-- Embedding of the static_assert condition of CacheDictionaryUpdateQueue
(header line 125): the class template can be instantiated only when the key
type differs from range. -/
def cacheDictionaryUpdateQueueStaticAssertCondition (t : DictionaryKeyType) : Bool :=
  decide (t ≠ DictionaryKeyType.range)

/-- C5: For every UpdateUnit, construction increments the in-flight batch
counter by one and the in-flight key counter by the number of requested keys.
This FAILS for the simple-keys constructor: it reads the size of the
constructor parameter after the member initializer has already moved from it,
so the key counter increments by 0 regardless of how many keys were requested.
This theorem evaluates the code at the failing input: a simple-keys unit built
from three keys registers 0, not 3, in the key counter, while the complex-keys
constructor (which reads the size of the member) correctly registers its row
count. -/
theorem simple_key_alive_keys_increment_is_zero :
    (CacheDictionaryUpdateUnit.mkSimple [1, 2, 3] emptyFetchRequest).alive_keys = 0 ∧
    (CacheDictionaryUpdateUnit.mkSimple [1, 2, 3] emptyFetchRequest).requested_simple_keys.length = 3 ∧
    (CacheDictionaryUpdateUnit.mkSimple [1, 2, 3] emptyFetchRequest).alive_batch = 1 ∧
    unitConstructMetrics (CacheDictionaryUpdateUnit.mkSimple [1, 2, 3] emptyFetchRequest) ⟨0, 0⟩ = ⟨1, 0⟩ ∧
    (CacheDictionaryUpdateUnit.mkComplex [10] [0, 1] emptyFetchRequest).alive_keys = 2 := by
  decide

/-- C9: The default-constructed unit has empty requested keys, an empty fetch
request, no complex-key arena, completion flag false, no captured error, and
contributes one to the in-flight batch counter but zero to the in-flight key
counter (also after the construct/destroy round trip on the metrics). -/
theorem default_unit_state :
    CacheDictionaryUpdateUnit.mkDefault.requested_simple_keys = [] ∧
    CacheDictionaryUpdateUnit.mkDefault.requested_complex_key_columns = [] ∧
    CacheDictionaryUpdateUnit.mkDefault.requested_complex_key_rows = [] ∧
    CacheDictionaryUpdateUnit.mkDefault.request = emptyFetchRequest ∧
    CacheDictionaryUpdateUnit.mkDefault.complex_key_arena = false ∧
    CacheDictionaryUpdateUnit.mkDefault.is_done = false ∧
    CacheDictionaryUpdateUnit.mkDefault.current_exception = none ∧
    CacheDictionaryUpdateUnit.mkDefault.alive_batch = 1 ∧
    CacheDictionaryUpdateUnit.mkDefault.alive_keys = 0 ∧
    unitConstructMetrics CacheDictionaryUpdateUnit.mkDefault ⟨5, 7⟩ = ⟨6, 7⟩ ∧
    unitDestroyMetrics CacheDictionaryUpdateUnit.mkDefault ⟨6, 7⟩ = ⟨5, 7⟩ := by
  decide

/-- C10: The queue template is instantiable exactly for the simple and complex
key types; the range key type fails the static_assert, so no queue operation
can exist for range keys. -/
theorem queue_instantiable_iff_not_range :
    cacheDictionaryUpdateQueueStaticAssertCondition DictionaryKeyType.simple = true ∧
    cacheDictionaryUpdateQueueStaticAssertCondition DictionaryKeyType.complex = true ∧
    cacheDictionaryUpdateQueueStaticAssertCondition DictionaryKeyType.range = false := by
  decide

/-- Configuration of the update queue (header lines 103-113): four size_t
tuning parameters, fixed for the lifetime of the queue. -/
structure CacheDictionaryUpdateQueueConfiguration where
  max_update_queue_size : Nat
  max_threads_for_updates : Nat
  update_queue_push_timeout_milliseconds : Nat
  query_wait_timeout_milliseconds : Nat
  deriving DecidableEq, Repr

/-- Modelled from the spec: the configuration is valid when all four fields are
positive.  The constructor body that performs this validation is not in the
sources. -/
def validConfiguration (c : CacheDictionaryUpdateQueueConfiguration) : Bool :=
  decide (0 < c.max_update_queue_size) &&
  decide (0 < c.max_threads_for_updates) &&
  decide (0 < c.update_queue_push_timeout_milliseconds) &&
  decide (0 < c.query_wait_timeout_milliseconds)

/-- State of a CacheDictionaryUpdateQueue (header lines 119-180).  The bounded
ConcurrentBoundedQueue of unit handles is the FIFO list pending (head dequeued
first); processed collects units whose processing (or forced shutdown
resolution) has finished; finished is the atomic shutdown flag;
worker_threads is the number of threads running in the update pool. -/
structure CacheDictionaryUpdateQueue where
  dictionary_name_for_logs : String
  configuration : CacheDictionaryUpdateQueueConfiguration
  pending : List CacheDictionaryUpdateUnit
  processed : List CacheDictionaryUpdateUnit
  finished : Bool
  worker_threads : Nat
  deriving DecidableEq, Repr

/-- Error taxonomy of the queue operations, from the specification. -/
inductive QueueError where
  | pushTimeout
  | pushAfterShutdown
  | waitTimeout
  | shutdownBeforeCompletion
  deriving DecidableEq, Repr

/-- Construction-time failures, from the specification. -/
inductive ConstructError where
  | invalidConfiguration
  | threadStartFailure
  deriving DecidableEq, Repr

/-- The freshly constructed queue state: empty bounded queue, shutdown flag
false, all configured worker threads started. -/
def initialQueue (name : String)
    (cfg : CacheDictionaryUpdateQueueConfiguration) : CacheDictionaryUpdateQueue :=
  { dictionary_name_for_logs := name
    configuration := cfg
    pending := []
    processed := []
    finished := false
    worker_threads := cfg.max_threads_for_updates }

/-- Modelled from the spec: the queue constructor (its body is not in the
sources) validates the configuration (all fields positive), then starts
max_threads_for_updates worker threads; failure to start the pool is fatal and
construction fails outright, leaving no queue behind.  No fetch occurs at
construction time.  The flag threads_start_ok stands for whether the thread
pool could start all configured threads. -/
def constructQueue (name : String)
    (cfg : CacheDictionaryUpdateQueueConfiguration)
    (threads_start_ok : Bool) : Except ConstructError CacheDictionaryUpdateQueue :=
  if validConfiguration cfg = false then .error .invalidConfiguration
  else if threads_start_ok = false then .error .threadStartFailure
  else .ok (initialQueue name cfg)

/-- Modelled from the spec: tryPushToUpdateQueueOrThrow (header lines 143-150,
body not in the sources).  Fails with a Shutdown condition when the queue has
already been stopped; fails with a Timeout condition when the bounded queue is
at capacity and stays so for the whole push-timeout window (a state at capacity
here stands for a queue that remained full for longer than
update_queue_push_timeout_milliseconds); otherwise appends the unit at the tail
of the FIFO and returns without waiting for processing to start. -/
def tryPushToUpdateQueueOrThrow (q : CacheDictionaryUpdateQueue)
    (u : CacheDictionaryUpdateUnit) :
    Except QueueError CacheDictionaryUpdateQueue :=
  if q.finished then .error .pushAfterShutdown
  else if q.configuration.max_update_queue_size ≤ q.pending.length then
    .error .pushTimeout
  else .ok { q with pending := q.pending ++ [u] }

/-- Outcome of waitForCurrentUpdateFinish, from the specification. -/
inductive WaitOutcome where
  | completed
  | rethrown (message : String)
  | waitTimeout
  | shutdownBeforeCompletion
  deriving DecidableEq, Repr

/-- Modelled from the spec: waitForCurrentUpdateFinish (header lines 152-161,
body not in the sources).  Blocks until the completion flag of the unit is
true, the wait timeout elapses, or the queue is shut down while the unit is
unresolved.  On normal completion a captured error is rethrown and NOT cleared
(the unit is returned unchanged); with the unit unresolved, shutdown yields a
Shutdown condition and an elapsed timeout yields a Timeout condition.  The
function is given the state of the unit at wake-up time; an unresolved unit on
a live queue stands for a wait whose timeout elapsed. -/
def waitForCurrentUpdateFinish (q : CacheDictionaryUpdateQueue)
    (u : CacheDictionaryUpdateUnit) : WaitOutcome × CacheDictionaryUpdateUnit :=
  if u.is_done then
    match u.current_exception with
    | some e => (.rethrown e, u)
    | none => (.completed, u)
  else if q.finished then (.shutdownBeforeCompletion, u)
  else (.waitTimeout, u)

/-- Result of one invocation of the update callback on a unit. -/
inductive UpdateCallbackResult where
  | success (idx : List (Nat × Nat)) (columns : List (List Nat))
  | failure (message : String)

/-- The type of the update callback (UpdateFunction, header line 124),
abstracted to its observable effect on a unit. -/
def UpdateFunction : Type :=
  CacheDictionaryUpdateUnit → UpdateCallbackResult

/-- Modelled from the spec: the processing of one dequeued unit by a worker.
The worker invokes the update callback exactly once; on success the callback
fills the output index and columns; an error raised by the callback is stored
in current_exception; in either case the completion flag is set to true and
waiters are notified.  The ghost invocation counter records the callback run. -/
def runCallback (f : UpdateFunction) (u : CacheDictionaryUpdateUnit) :
    CacheDictionaryUpdateUnit :=
  match f u with
  | .success idx cols =>
      { u with
        requested_keys_to_fetched_columns_during_update_index := idx
        fetched_columns_during_update := cols
        is_done := true
        ghost_callback_invocations := u.ghost_callback_invocations + 1 }
  | .failure msg =>
      { u with
        current_exception := some msg
        is_done := true
        ghost_callback_invocations := u.ghost_callback_invocations + 1 }

/-- Modelled from the spec: one iteration of the worker loop
(updateThreadFunction, header line 164, body not in the sources): dequeue the
unit at the head of the FIFO, process it with the update callback, mark it
done.  Returns none when the queue is empty (the worker blocks). -/
def workerStep (f : UpdateFunction) (q : CacheDictionaryUpdateQueue) :
    Option CacheDictionaryUpdateQueue :=
  match q.pending with
  | [] => none
  | u :: rest =>
      some { q with pending := rest, processed := q.processed ++ [runCallback f u] }

/-- Iterates workerStep at most the given number of times, stopping when the
queue is empty. -/
def drainFuel (f : UpdateFunction) : Nat → CacheDictionaryUpdateQueue →
    CacheDictionaryUpdateQueue
  | 0, q => q
  | n + 1, q =>
      match workerStep f q with
      | none => q
      | some q2 => drainFuel f n q2

/-- Runs worker iterations until every pending unit has been processed. -/
def drainAll (f : UpdateFunction) (q : CacheDictionaryUpdateQueue) :
    CacheDictionaryUpdateQueue :=
  drainFuel f q.pending.length q

/-- Modelled from the spec: the forced resolution that stopAndWait applies to a
unit still unresolved at shutdown: the unit is resolved with a Shutdown error
and its completion flag is forced true so no waiter blocks indefinitely. -/
def forceResolve (u : CacheDictionaryUpdateUnit) : CacheDictionaryUpdateUnit :=
  { u with
    is_done := true
    current_exception := some "CacheDictionaryUpdateQueue shut down before unit completion" }

/-- Modelled from the spec: stopAndWait (header lines 140-141, body not in the
sources).  Sets the shutdown flag, prevents further pushes, abandons
not-yet-started units by force-resolving them with a Shutdown error, and joins
all worker threads. -/
def stopAndWait (q : CacheDictionaryUpdateQueue) : CacheDictionaryUpdateQueue :=
  { q with
    finished := true
    pending := []
    processed := q.processed ++ q.pending.map forceResolve }

/-- Modelled from the spec: the destructor (header line 132, body not in the
sources) calls stopAndWait if it was not already called. -/
def queueDestructor (q : CacheDictionaryUpdateQueue) : CacheDictionaryUpdateQueue :=
  if q.finished then q else stopAndWait q

/-- Auxiliary: iterating the worker step with enough fuel processes every
pending unit, in FIFO order, appending the results to processed. -/
theorem drainFuel_processes_in_order (f : UpdateFunction) :
    ∀ (n : Nat) (q : CacheDictionaryUpdateQueue), q.pending.length ≤ n →
      drainFuel f n q =
        { q with pending := [],
                 processed := q.processed ++ q.pending.map (runCallback f) } := by
  intro n
  induction n with
  | zero =>
      intro q h
      obtain ⟨name, cfg, pending, processed, fin, wt⟩ := q
      cases pending with
      | nil => simp [drainFuel]
      | cons u rest => simp at h
  | succ n ih =>
      intro q h
      obtain ⟨name, cfg, pending, processed, fin, wt⟩ := q
      cases pending with
      | nil => simp [drainFuel, workerStep]
      | cons u rest =>
          have hlen : rest.length ≤ n := by
            simp [List.length_cons] at h
            omega
          simp only [drainFuel, workerStep]
          rw [ih _ hlen]
          simp

/-- C1: If the update callback of a unit raised an error, a wait that observes
normal completion rethrows the captured error, the error is not cleared by
rethrowing (the unit is returned unchanged), and a second wait on the same
unit rethrows it again. -/
theorem wait_rethrows_captured_error_and_preserves_it
    (q : CacheDictionaryUpdateQueue) (u : CacheDictionaryUpdateUnit) (e : String)
    (hdone : u.is_done = true) (herr : u.current_exception = some e) :
    waitForCurrentUpdateFinish q u = (.rethrown e, u) ∧
    waitForCurrentUpdateFinish q (waitForCurrentUpdateFinish q u).2 =
      (.rethrown e, u) := by
  constructor <;> simp [waitForCurrentUpdateFinish, hdone, herr]

/-- C1 witness: a unit whose callback raised rethrows on wait and rethrows
again on a second wait. -/
theorem wait_rethrows_captured_error_witness :
    waitForCurrentUpdateFinish ⟨"d", ⟨1, 1, 1, 1⟩, [], [], false, 1⟩
        (runCallback (fun _ => .failure "source unavailable")
          CacheDictionaryUpdateUnit.mkDefault) =
      (.rethrown "source unavailable",
       runCallback (fun _ => .failure "source unavailable")
         CacheDictionaryUpdateUnit.mkDefault) ∧
    waitForCurrentUpdateFinish ⟨"d", ⟨1, 1, 1, 1⟩, [], [], false, 1⟩
        (waitForCurrentUpdateFinish ⟨"d", ⟨1, 1, 1, 1⟩, [], [], false, 1⟩
          (runCallback (fun _ => .failure "source unavailable")
            CacheDictionaryUpdateUnit.mkDefault)).2 =
      (.rethrown "source unavailable",
       runCallback (fun _ => .failure "source unavailable")
         CacheDictionaryUpdateUnit.mkDefault) :=
  wait_rethrows_captured_error_and_preserves_it _ _ "source unavailable" rfl rfl

/-- C4: With the unit unresolved on a live queue, an elapsed wait timeout
yields a Timeout condition and the unit stays free to complete later (a worker
can still mark it done); with the unit unresolved on a stopped queue, the wait
yields a Shutdown condition; with the completion flag already true, the wait
never reports Timeout or Shutdown. -/
theorem wait_timeout_and_shutdown_outcomes
    (q : CacheDictionaryUpdateQueue) (u : CacheDictionaryUpdateUnit)
    (f : UpdateFunction) :
    (u.is_done = false → q.finished = false →
      waitForCurrentUpdateFinish q u = (.waitTimeout, u) ∧
      (runCallback f u).is_done = true) ∧
    (u.is_done = false → q.finished = true →
      waitForCurrentUpdateFinish q u = (.shutdownBeforeCompletion, u)) ∧
    (u.is_done = true →
      (waitForCurrentUpdateFinish q u).1 ≠ .waitTimeout ∧
      (waitForCurrentUpdateFinish q u).1 ≠ .shutdownBeforeCompletion) := by
  refine ⟨?_, ?_, ?_⟩
  · intro hd hf
    refine ⟨by simp [waitForCurrentUpdateFinish, hd, hf], ?_⟩
    cases hfu : f u <;> simp [runCallback, hfu]
  · intro hd hf
    simp [waitForCurrentUpdateFinish, hd, hf]
  · intro hd
    cases he : u.current_exception <;>
      simp [waitForCurrentUpdateFinish, hd, he]

/-- C4 witness: timeout on a live queue with an unresolved unit, later
completion still possible, shutdown outcome on a stopped queue, and no timeout
report for a completed unit. -/
theorem wait_timeout_and_shutdown_outcomes_witness :
    waitForCurrentUpdateFinish ⟨"d", ⟨1, 1, 1, 1⟩, [], [], false, 1⟩
        CacheDictionaryUpdateUnit.mkDefault =
      (.waitTimeout, CacheDictionaryUpdateUnit.mkDefault) ∧
    (runCallback (fun _ => .success [] [])
        CacheDictionaryUpdateUnit.mkDefault).is_done = true ∧
    waitForCurrentUpdateFinish ⟨"d", ⟨1, 1, 1, 1⟩, [], [], true, 1⟩
        CacheDictionaryUpdateUnit.mkDefault =
      (.shutdownBeforeCompletion, CacheDictionaryUpdateUnit.mkDefault) ∧
    (waitForCurrentUpdateFinish ⟨"d", ⟨1, 1, 1, 1⟩, [], [], false, 1⟩
        { CacheDictionaryUpdateUnit.mkDefault with is_done := true }).1 ≠
      WaitOutcome.waitTimeout :=
  ⟨((wait_timeout_and_shutdown_outcomes ⟨"d", ⟨1, 1, 1, 1⟩, [], [], false, 1⟩
      CacheDictionaryUpdateUnit.mkDefault (fun _ => .success [] [])).1 rfl rfl).1,
   ((wait_timeout_and_shutdown_outcomes ⟨"d", ⟨1, 1, 1, 1⟩, [], [], false, 1⟩
      CacheDictionaryUpdateUnit.mkDefault (fun _ => .success [] [])).1 rfl rfl).2,
   (wait_timeout_and_shutdown_outcomes ⟨"d", ⟨1, 1, 1, 1⟩, [], [], true, 1⟩
      CacheDictionaryUpdateUnit.mkDefault (fun _ => .success [] [])).2.1 rfl rfl,
   ((wait_timeout_and_shutdown_outcomes ⟨"d", ⟨1, 1, 1, 1⟩, [], [], false, 1⟩
      { CacheDictionaryUpdateUnit.mkDefault with is_done := true }
      (fun _ => .success [] [])).2.2 rfl).1⟩

/-- C3: A push on a stopped queue fails with a Shutdown condition; a push on a
queue at capacity that stays full past the push timeout fails with a Timeout
condition; otherwise the unit is appended at the tail of the FIFO and the call
returns with no processing started (processed units unchanged). -/
theorem tryPush_outcomes
    (q : CacheDictionaryUpdateQueue) (u : CacheDictionaryUpdateUnit) :
    (q.finished = true →
      tryPushToUpdateQueueOrThrow q u = .error .pushAfterShutdown) ∧
    (q.finished = false →
      q.configuration.max_update_queue_size ≤ q.pending.length →
      tryPushToUpdateQueueOrThrow q u = .error .pushTimeout) ∧
    (q.finished = false →
      q.pending.length < q.configuration.max_update_queue_size →
      tryPushToUpdateQueueOrThrow q u =
        .ok { q with pending := q.pending ++ [u] } ∧
      ({ q with pending := q.pending ++ [u] } :
          CacheDictionaryUpdateQueue).processed = q.processed ∧
      (q.pending ++ [u]).getLast? = some u) := by
  refine ⟨?_, ?_, ?_⟩
  · intro hf
    simp [tryPushToUpdateQueueOrThrow, hf]
  · intro hf hfull
    simp [tryPushToUpdateQueueOrThrow, hf, hfull]
  · intro hf hroom
    have hnot : ¬ (q.configuration.max_update_queue_size ≤ q.pending.length) :=
      Nat.not_le.mpr hroom
    simp [tryPushToUpdateQueueOrThrow, hf, hnot, List.getLast?_concat]

/-- C3 witness: shutdown failure on a stopped queue, timeout failure on a full
queue, and successful tail enqueue on a queue with room. -/
theorem tryPush_outcomes_witness :
    tryPushToUpdateQueueOrThrow ⟨"d", ⟨1, 1, 10, 10⟩, [], [], true, 1⟩
        CacheDictionaryUpdateUnit.mkDefault = .error .pushAfterShutdown ∧
    tryPushToUpdateQueueOrThrow
        ⟨"d", ⟨1, 1, 10, 10⟩, [CacheDictionaryUpdateUnit.mkDefault], [], false, 1⟩
        CacheDictionaryUpdateUnit.mkDefault = .error .pushTimeout ∧
    tryPushToUpdateQueueOrThrow ⟨"d", ⟨1, 1, 10, 10⟩, [], [], false, 1⟩
        CacheDictionaryUpdateUnit.mkDefault =
      .ok ⟨"d", ⟨1, 1, 10, 10⟩, [CacheDictionaryUpdateUnit.mkDefault], [], false, 1⟩ :=
  ⟨(tryPush_outcomes ⟨"d", ⟨1, 1, 10, 10⟩, [], [], true, 1⟩
      CacheDictionaryUpdateUnit.mkDefault).1 rfl,
   (tryPush_outcomes
      ⟨"d", ⟨1, 1, 10, 10⟩, [CacheDictionaryUpdateUnit.mkDefault], [], false, 1⟩
      CacheDictionaryUpdateUnit.mkDefault).2.1 rfl (by decide),
   ((tryPush_outcomes ⟨"d", ⟨1, 1, 10, 10⟩, [], [], false, 1⟩
      CacheDictionaryUpdateUnit.mkDefault).2.2 rfl (by decide)).1⟩

/-- C2: After stopAndWait the shutdown flag is set, no unit is left pending,
every previously pushed unit (already processed or force-resolved at shutdown)
has its completion flag true, every subsequent push fails with a Shutdown
condition, stopAndWait is idempotent, and the destructor invokes it when it
was not already called (and leaves an already stopped queue unchanged). -/
theorem stopAndWait_completes_all_units_and_blocks_pushes
    (q : CacheDictionaryUpdateQueue) (u : CacheDictionaryUpdateUnit)
    (hproc : ∀ v ∈ q.processed, v.is_done = true) :
    (stopAndWait q).finished = true ∧
    (stopAndWait q).pending = [] ∧
    (stopAndWait q).processed = q.processed ++ q.pending.map forceResolve ∧
    (∀ v ∈ (stopAndWait q).processed, v.is_done = true) ∧
    tryPushToUpdateQueueOrThrow (stopAndWait q) u = .error .pushAfterShutdown ∧
    stopAndWait (stopAndWait q) = stopAndWait q ∧
    (q.finished = false → queueDestructor q = stopAndWait q) ∧
    queueDestructor (stopAndWait q) = stopAndWait q := by
  refine ⟨rfl, rfl, rfl, ?_, ?_, ?_, ?_, ?_⟩
  · intro v hv
    rcases List.mem_append.1 hv with hv | hv
    · exact hproc v hv
    · rcases List.mem_map.1 hv with ⟨w, _, rfl⟩
      simp [forceResolve]
  · simp [tryPushToUpdateQueueOrThrow, stopAndWait]
  · simp [stopAndWait]
  · intro hf
    simp [queueDestructor, hf]
  · simp [queueDestructor, stopAndWait]

/-- C2 witness: a queue with one completed and one still pending unit, stopped
and probed with a fresh push. -/
theorem stopAndWait_completes_all_units_witness :
    (stopAndWait ⟨"d", ⟨2, 1, 10, 10⟩, [CacheDictionaryUpdateUnit.mkDefault],
        [{ CacheDictionaryUpdateUnit.mkDefault with is_done := true }], false, 1⟩).finished
      = true ∧
    (stopAndWait ⟨"d", ⟨2, 1, 10, 10⟩, [CacheDictionaryUpdateUnit.mkDefault],
        [{ CacheDictionaryUpdateUnit.mkDefault with is_done := true }], false, 1⟩).pending
      = [] ∧
    (stopAndWait ⟨"d", ⟨2, 1, 10, 10⟩, [CacheDictionaryUpdateUnit.mkDefault],
        [{ CacheDictionaryUpdateUnit.mkDefault with is_done := true }], false, 1⟩).processed
      = [{ CacheDictionaryUpdateUnit.mkDefault with is_done := true }] ++
        [CacheDictionaryUpdateUnit.mkDefault].map forceResolve ∧
    (∀ v ∈ (stopAndWait ⟨"d", ⟨2, 1, 10, 10⟩, [CacheDictionaryUpdateUnit.mkDefault],
        [{ CacheDictionaryUpdateUnit.mkDefault with is_done := true }], false, 1⟩).processed,
      v.is_done = true) ∧
    tryPushToUpdateQueueOrThrow
        (stopAndWait ⟨"d", ⟨2, 1, 10, 10⟩, [CacheDictionaryUpdateUnit.mkDefault],
          [{ CacheDictionaryUpdateUnit.mkDefault with is_done := true }], false, 1⟩)
        CacheDictionaryUpdateUnit.mkDefault = .error .pushAfterShutdown ∧
    stopAndWait (stopAndWait ⟨"d", ⟨2, 1, 10, 10⟩, [CacheDictionaryUpdateUnit.mkDefault],
        [{ CacheDictionaryUpdateUnit.mkDefault with is_done := true }], false, 1⟩)
      = stopAndWait ⟨"d", ⟨2, 1, 10, 10⟩, [CacheDictionaryUpdateUnit.mkDefault],
        [{ CacheDictionaryUpdateUnit.mkDefault with is_done := true }], false, 1⟩ ∧
    (false = false → queueDestructor ⟨"d", ⟨2, 1, 10, 10⟩,
        [CacheDictionaryUpdateUnit.mkDefault],
        [{ CacheDictionaryUpdateUnit.mkDefault with is_done := true }], false, 1⟩
      = stopAndWait ⟨"d", ⟨2, 1, 10, 10⟩, [CacheDictionaryUpdateUnit.mkDefault],
        [{ CacheDictionaryUpdateUnit.mkDefault with is_done := true }], false, 1⟩) ∧
    queueDestructor (stopAndWait ⟨"d", ⟨2, 1, 10, 10⟩,
        [CacheDictionaryUpdateUnit.mkDefault],
        [{ CacheDictionaryUpdateUnit.mkDefault with is_done := true }], false, 1⟩)
      = stopAndWait ⟨"d", ⟨2, 1, 10, 10⟩, [CacheDictionaryUpdateUnit.mkDefault],
        [{ CacheDictionaryUpdateUnit.mkDefault with is_done := true }], false, 1⟩ :=
  stopAndWait_completes_all_units_and_blocks_pushes
    ⟨"d", ⟨2, 1, 10, 10⟩, [CacheDictionaryUpdateUnit.mkDefault],
      [{ CacheDictionaryUpdateUnit.mkDefault with is_done := true }], false, 1⟩
    CacheDictionaryUpdateUnit.mkDefault (by decide)

/-- C6: Construction fails with an invalid-configuration error exactly when
one of the four configuration fields is zero, fails outright when the worker
pool cannot start (no partially started queue is returned), and otherwise
yields a queue with max_threads_for_updates started worker threads and no
fetch performed (nothing pending, nothing processed). -/
theorem construct_validates_and_starts_threads
    (name : String) (cfg : CacheDictionaryUpdateQueueConfiguration)
    (threads_start_ok : Bool) :
    (validConfiguration cfg = true ↔
      (0 < cfg.max_update_queue_size ∧ 0 < cfg.max_threads_for_updates ∧
       0 < cfg.update_queue_push_timeout_milliseconds ∧
       0 < cfg.query_wait_timeout_milliseconds)) ∧
    (validConfiguration cfg = false →
      constructQueue name cfg threads_start_ok = .error .invalidConfiguration) ∧
    (validConfiguration cfg = true → threads_start_ok = false →
      constructQueue name cfg threads_start_ok = .error .threadStartFailure) ∧
    (validConfiguration cfg = true → threads_start_ok = true →
      constructQueue name cfg threads_start_ok = .ok (initialQueue name cfg) ∧
      (initialQueue name cfg).worker_threads = cfg.max_threads_for_updates ∧
      (initialQueue name cfg).pending = [] ∧
      (initialQueue name cfg).processed = [] ∧
      (initialQueue name cfg).finished = false) := by
  refine ⟨?_, ?_, ?_, ?_⟩
  · simp [validConfiguration]
    tauto
  · intro hv
    simp [constructQueue, hv]
  · intro hv ht
    simp [constructQueue, hv, ht]
  · intro hv ht
    exact ⟨by simp [constructQueue, hv, ht], rfl, rfl, rfl, rfl⟩

/-- C6 witness: a zero queue size is rejected, a thread-start failure fails
construction, and a valid configuration with a healthy pool yields the fresh
queue with the configured thread count. -/
theorem construct_validates_and_starts_threads_witness :
    constructQueue "d" ⟨0, 1, 1, 1⟩ true = .error .invalidConfiguration ∧
    constructQueue "d" ⟨4, 2, 10, 10⟩ false = .error .threadStartFailure ∧
    (constructQueue "d" ⟨4, 2, 10, 10⟩ true = .ok (initialQueue "d" ⟨4, 2, 10, 10⟩) ∧
      (initialQueue "d" ⟨4, 2, 10, 10⟩).worker_threads = 2 ∧
      (initialQueue "d" ⟨4, 2, 10, 10⟩).pending = [] ∧
      (initialQueue "d" ⟨4, 2, 10, 10⟩).processed = [] ∧
      (initialQueue "d" ⟨4, 2, 10, 10⟩).finished = false) :=
  ⟨(construct_validates_and_starts_threads "d" ⟨0, 1, 1, 1⟩ true).2.1 (by decide),
   (construct_validates_and_starts_threads "d" ⟨4, 2, 10, 10⟩ false).2.2.1
     (by decide) rfl,
   (construct_validates_and_starts_threads "d" ⟨4, 2, 10, 10⟩ true).2.2.2
     (by decide) rfl⟩

/-- C7: The worker loop dequeues the unit at the head of the FIFO (so units
are processed in the order the pushes succeeded), draining the whole queue
appends the processed units to processed in exactly the FIFO order, and each
dequeued unit has its callback invoked exactly once. -/
theorem workers_fifo_and_callback_once
    (f : UpdateFunction) (q : CacheDictionaryUpdateQueue)
    (hfresh : ∀ u ∈ q.pending, u.ghost_callback_invocations = 0) :
    (∀ u rest, q.pending = u :: rest →
      workerStep f q =
        some { q with pending := rest,
                      processed := q.processed ++ [runCallback f u] }) ∧
    (drainAll f q).processed = q.processed ++ q.pending.map (runCallback f) ∧
    (∀ u ∈ q.pending, (runCallback f u).ghost_callback_invocations = 1) := by
  refine ⟨?_, ?_, ?_⟩
  · intro u rest hq
    simp [workerStep, hq]
  · rw [drainAll, drainFuel_processes_in_order f _ q (Nat.le_refl _)]
  · intro u hu
    have h0 := hfresh u hu
    cases hfu : f u <;> simp [runCallback, hfu, h0]

/-- C7 witness: a queue holding two fresh units is drained in FIFO order and
each callback runs exactly once. -/
theorem workers_fifo_and_callback_once_witness :
    (∀ u rest,
      ([CacheDictionaryUpdateUnit.mkDefault,
        CacheDictionaryUpdateUnit.mkSimple [5] emptyFetchRequest] :
          List CacheDictionaryUpdateUnit) = u :: rest →
      workerStep (fun _ => .success [] [])
          ⟨"d", ⟨4, 1, 10, 10⟩,
            [CacheDictionaryUpdateUnit.mkDefault,
             CacheDictionaryUpdateUnit.mkSimple [5] emptyFetchRequest], [], false, 1⟩ =
        some { (⟨"d", ⟨4, 1, 10, 10⟩,
            [CacheDictionaryUpdateUnit.mkDefault,
             CacheDictionaryUpdateUnit.mkSimple [5] emptyFetchRequest], [], false, 1⟩ :
              CacheDictionaryUpdateQueue) with
          pending := rest,
          processed := [] ++ [runCallback (fun _ => .success [] []) u] }) ∧
    (drainAll (fun _ => .success [] [])
        ⟨"d", ⟨4, 1, 10, 10⟩,
          [CacheDictionaryUpdateUnit.mkDefault,
           CacheDictionaryUpdateUnit.mkSimple [5] emptyFetchRequest], [], false, 1⟩).processed
      = [] ++
        [CacheDictionaryUpdateUnit.mkDefault,
         CacheDictionaryUpdateUnit.mkSimple [5] emptyFetchRequest].map
          (runCallback (fun _ => .success [] [])) ∧
    (∀ u ∈ ([CacheDictionaryUpdateUnit.mkDefault,
        CacheDictionaryUpdateUnit.mkSimple [5] emptyFetchRequest] :
          List CacheDictionaryUpdateUnit),
      (runCallback (fun _ => .success [] []) u).ghost_callback_invocations = 1) :=
  workers_fifo_and_callback_once (fun _ => .success [] [])
    ⟨"d", ⟨4, 1, 10, 10⟩,
      [CacheDictionaryUpdateUnit.mkDefault,
       CacheDictionaryUpdateUnit.mkSimple [5] emptyFetchRequest], [], false, 1⟩
    (by decide)

end DB
